import Mathlib

/-!
Shallow embedding of the Pybricks train-control repository
(`main_hub.py`, `main-hub.py`, `observer-hub.py`) and proofs about the
acceleration ramp, LED selection, light control, broadcast validation and
the observer's link-state machine.

Python integers are embedded as `Int`, elapsed stopwatch times as `Nat`
milliseconds, and LED `Color` objects as opaque `Nat` codes (the code only
ever passes them through; no claim depends on their internal structure).
-/

namespace PybricksTrain

/-- `MotorProfile` from `main_hub.py` (speeds and steps are Python ints;
`acceleration_delay` is a pure real-time pause and irrelevant to state). -/
structure MotorProfile where
  min_speed : Int
  max_speed : Int
  acceleration_step : Nat
  acceleration_delay : Nat
deriving DecidableEq

/-- `Configuration.profile_a = MotorProfile(20, 100, 10, 100)`. -/
def profile_a : MotorProfile := ⟨20, 100, 10, 100⟩

/-- `Configuration.profile_b = MotorProfile(10, 500, 5, 200)`. -/
def profile_b : MotorProfile := ⟨10, 500, 5, 200⟩

/-- The hard clamp of one `_accelerate` tick
(`main_hub.py` lines 464-467): clamp to `[-max_speed, max_speed]`. -/
def clampSpeed (p : MotorProfile) (s : Int) : Int :=
  if s > p.max_speed then p.max_speed
  else if s < -p.max_speed then -p.max_speed
  else s

/-- The deadband of one `_accelerate` tick (`main_hub.py` lines 470-473):
`if 0 < abs(s) < min: s = min * (1 if direction > 0 else -1)`
`elif abs(s) < min: s = 0`. -/
def applyDeadband (p : MotorProfile) (direction : Int) (s : Int) : Int :=
  if 0 < |s| ∧ |s| < p.min_speed then
    p.min_speed * (if direction > 0 then 1 else -1)
  else if |s| < p.min_speed then 0
  else s

/-- One complete tick of `MotorControlSystem._accelerate`
(`main_hub.py` lines 461-473): increment by `direction`, clamp, deadband. -/
def accelTick (p : MotorProfile) (direction : Int) (s : Int) : Int :=
  applyDeadband p direction (clampSpeed p (s + direction))

/-- The tick loop of `_accelerate` (`main_hub.py` lines 460-479): up to
`n` ticks, breaking early as soon as the speed reaches exactly 0
(`if self.current_speed == 0: break`). -/
def accelLoop (p : MotorProfile) (direction : Int) : Nat → Int → Int
  | 0, s => s
  | n + 1, s =>
      if accelTick p direction s = 0 then accelTick p direction s
      else accelLoop p direction n (accelTick p direction s)

/-- One full call of `MotorControlSystem._accelerate` as a speed
transformer: `acceleration_step` ticks with the early break. -/
def accelerate (p : MotorProfile) (direction : Int) (s : Int) : Int :=
  accelLoop p direction p.acceleration_step s

/-- `n` repeated calls of `_accelerate`. -/
def rampCalls (p : MotorProfile) (direction : Int) : Nat → Int → Int
  | 0, s => s
  | n + 1, s => rampCalls p direction n (accelerate p direction s)

/-- The ramp range invariant of the spec: `|speed| ≤ max_speed` and
`|speed|` never strictly between 0 and `min_speed`. -/
def speedInvariant (p : MotorProfile) (s : Int) : Prop :=
  |s| ≤ p.max_speed ∧ ¬(0 < |s| ∧ |s| < p.min_speed)

instance (p : MotorProfile) (s : Int) : Decidable (speedInvariant p s) := by
  unfold speedInvariant; infer_instance

/-- Opaque codes for the `Color` expressions appearing in `Configuration`
(`main_hub.py`); the code only passes colors through, never inspects them. -/
def colorWhite20 : Nat := 0

def colorYellow50 : Nat := 1

def colorOrange50 : Nat := 2

def colorRed70 : Nat := 3

def colorGreen60 : Nat := 4

def colorBlue50 : Nat := 5

def colorMagenta50 : Nat := 6

def colorViolet70 : Nat := 7

def colorRed60 : Nat := 8

def colorGreen30 : Nat := 9

def colorRed50 : Nat := 10

/-- `SpeedLEDConfig` from `main_hub.py`: colors as opaque codes, the two
thresholds as percentages (Python ints). -/
structure SpeedLEDConfig where
  stopped : Nat
  slow : Nat
  medium : Nat
  fast : Nat
  profile_indicator : Option Nat
  slow_threshold : Int
  medium_threshold : Int
  blink_interval_ms : Nat
deriving DecidableEq

/-- `Configuration.led_speed_profile_a`: `SpeedLEDConfig` defaults with a
green profile indicator, thresholds 30 and 60. -/
def led_speed_profile_a : SpeedLEDConfig :=
  { stopped := colorWhite20, slow := colorYellow50, medium := colorOrange50,
    fast := colorRed70, profile_indicator := some colorGreen60,
    slow_threshold := 30, medium_threshold := 60, blink_interval_ms := 500 }

/-- `Configuration.led_speed_profile_b`: thresholds 20 and 50. -/
def led_speed_profile_b : SpeedLEDConfig :=
  { stopped := colorWhite20, slow := colorBlue50, medium := colorMagenta50,
    fast := colorViolet70, profile_indicator := some colorRed60,
    slow_threshold := 20, medium_threshold := 50, blink_interval_ms := 500 }

/-- `Timer` state from `main_hub.py` lines 127-154; `elapsed` is the
stopwatch reading in milliseconds. -/
structure BlinkTimer where
  active : Bool
  target_time : Nat
  elapsed : Nat
deriving DecidableEq

/-- `Timer.check` (`main_hub.py` 143-149): when active and the stopwatch
reads past the target, deactivate and report `true`. -/
def timerCheck (t : BlinkTimer) : BlinkTimer × Bool :=
  if t.active ∧ t.target_time < t.elapsed then
    ({ t with active := false, target_time := 0 }, true)
  else (t, false)

/-- `Timer.start` (`main_hub.py` 136-141): when inactive, activate, reset
the stopwatch and set the target. -/
def timerStart (t : BlinkTimer) (duration : Nat) : BlinkTimer :=
  if ¬ t.active then { active := true, target_time := duration, elapsed := 0 }
  else t

/-- The blink-related state of `MotorControlSystem`: `blink_timer` and
`led_blink_state`. -/
structure LedState where
  blink_timer : BlinkTimer
  led_blink_state : Bool
deriving DecidableEq

/-- `MotorControlSystem._get_stopped_led_color` (`main_hub.py` 400-420):
toggle on timer expiry, restart the timer when inactive, and return the
profile-indicator color (falling back to `fast`) or the stopped color. -/
def getStoppedLedColor (sc : SpeedLEDConfig) (st : LedState) : LedState × Nat :=
  let c := timerCheck st.blink_timer
  let blink := if c.2 then ! st.led_blink_state else st.led_blink_state
  let t2 := if ¬ c.1.active then timerStart c.1 sc.blink_interval_ms else c.1
  let color :=
    if blink then
      match sc.profile_indicator with
      | some pc => pc
      | none => sc.fast
    else sc.stopped
  (⟨t2, blink⟩, color)

/-- The fragment of `Configuration` read by the modelled operations. -/
structure MainConfig where
  profile_a : MotorProfile
  profile_b : MotorProfile
  led_speed_profile_a : SpeedLEDConfig
  led_speed_profile_b : SpeedLEDConfig
  use_speed_based_leds : Bool
  blink_profile_when_stopped : Bool
  should_broadcast : Bool
deriving DecidableEq

/-- The default `Configuration()` of `main_hub.py`. -/
def defaultConfig : MainConfig :=
  { profile_a := profile_a, profile_b := profile_b,
    led_speed_profile_a := led_speed_profile_a,
    led_speed_profile_b := led_speed_profile_b,
    use_speed_based_leds := true, blink_profile_when_stopped := true,
    should_broadcast := true }

/-- The mutable state of `MotorControlSystem` touched by the modelled
operations. -/
structure MainState where
  current_speed : Int
  previous_speed : Int
  current_profile : Nat
  light_value : Int
  led : LedState
  remote_connected : Bool
deriving DecidableEq

/-- `MotorControlSystem._get_current_profile`. -/
def currentProfile (cfg : MainConfig) (idx : Nat) : MotorProfile :=
  if idx = 1 then cfg.profile_a else cfg.profile_b

/-- `MotorControlSystem._get_current_speed_led_config`. -/
def currentSpeedLedConfig (cfg : MainConfig) (idx : Nat) : SpeedLEDConfig :=
  if idx = 1 then cfg.led_speed_profile_a else cfg.led_speed_profile_b

/-- `(abs(speed) / profile.max_speed) * 100` in exact rational
arithmetic. -/
def speedPercentage (p : MotorProfile) (speed : Int) : ℚ :=
  ((|speed| : Int) : ℚ) / (p.max_speed : ℚ) * 100

/-- `MotorControlSystem._get_led_color_for_speed` (`main_hub.py` 372-398),
returning the possibly-updated blink state together with the color. -/
def getLedColorForSpeed (cfg : MainConfig) (st : MainState) (speed : Int) :
    LedState × Nat :=
  if ¬ cfg.use_speed_based_leds then
    (st.led, if st.current_profile = 1 then colorGreen30 else colorRed50)
  else if |speed| = 0 then
    if cfg.blink_profile_when_stopped then
      getStoppedLedColor (currentSpeedLedConfig cfg st.current_profile) st.led
    else (st.led, (currentSpeedLedConfig cfg st.current_profile).stopped)
  else if speedPercentage (currentProfile cfg st.current_profile) speed ≤
      ((currentSpeedLedConfig cfg st.current_profile).slow_threshold : ℚ) then
    (st.led, (currentSpeedLedConfig cfg st.current_profile).slow)
  else if speedPercentage (currentProfile cfg st.current_profile) speed ≤
      ((currentSpeedLedConfig cfg st.current_profile).medium_threshold : ℚ) then
    (st.led, (currentSpeedLedConfig cfg st.current_profile).medium)
  else (st.led, (currentSpeedLedConfig cfg st.current_profile).fast)

/-- Observable actuator/channel effects of the primary hub. -/
inductive Effect where
  | setSpeed (s : Int)
  | setRemoteLed (c : Nat)
  | broadcast (speed light : Int)
deriving DecidableEq

/-- `MotorControlSystem._update_motor_speeds` (`main_hub.py` 422-435): the
state update together with the issued effects in program order (one
`set_speed` per motor; the system constructs exactly two `MotorDevice`s). -/
def updateMotorSpeeds (cfg : MainConfig) (st : MainState) :
    MainState × List Effect :=
  if st.current_speed ≠ st.previous_speed then
    let st1 : MainState := { st with previous_speed := st.current_speed }
    let led :=
      if st1.remote_connected then getLedColorForSpeed cfg st1 st1.current_speed
      else (st1.led, 0)
    let st2 : MainState :=
      if st1.remote_connected then { st1 with led := led.1 } else st1
    (st2,
      [Effect.setSpeed st.current_speed, Effect.setSpeed st.current_speed] ++
        (if st1.remote_connected then [Effect.setRemoteLed led.2] else []) ++
        (if cfg.should_broadcast then
          [Effect.broadcast st2.current_speed st2.light_value] else []))
  else (st, [])

/-- The B-side button inputs read by `_handle_light_control`. -/
structure LightButtons where
  b_up : Bool
  b_down : Bool
  b_stop : Bool
deriving DecidableEq

/-- The action `_handle_light_control` selects, in priority order
up, down, toggle. -/
inductive LightAction where
  | up
  | down
  | toggle
  | idle
deriving DecidableEq

/-- Which branch of `_handle_light_control` fires. -/
def lightAction (b : LightButtons) : LightAction :=
  if b.b_up ∧ ¬ b.b_stop then LightAction.up
  else if b.b_down ∧ ¬ b.b_stop then LightAction.down
  else if b.b_stop then LightAction.toggle
  else LightAction.idle

/-- The `light_value` transformation of each branch. -/
def applyLightAction : LightAction → Int → Int
  | LightAction.up, l => min 100 (l + 10)
  | LightAction.down, l => max 0 (l - 10)
  | LightAction.toggle, l => if l = 0 then 100 else 0
  | LightAction.idle, l => l

/-- `MotorControlSystem._handle_light_control` (`main_hub.py` 495-522) as a
function from button state and `light_value` to the new `light_value` and
the selected settle delay (`wait_time`, 0 when no action fired). -/
def handleLightControl (b : LightButtons) (light : Int) : Int × Nat :=
  if b.b_up ∧ ¬ b.b_stop then (min 100 (light + 10), 100)
  else if b.b_down ∧ ¬ b.b_stop then (max 0 (light - 10), 100)
  else if b.b_stop then ((if light = 0 then 100 else 0), 300)
  else (light, 0)

/-- A universe of Python values that can arrive over the BLE observe
channel. Numerics are modelled by `vint` (Python `int`) and `vbool`
(in Python `isinstance(True, int)` holds, so booleans pass the numeric
check and `int()` converts them to 1/0); floating-point samples are not
modelled. -/
inductive PyVal where
  | vint (n : Int)
  | vbool (b : Bool)
  | vstr (s : String)
  | vnone
  | vtuple (xs : List PyVal)
  | vlist (xs : List PyVal)

/-- `isinstance(data, (tuple, list))` together with element access. -/
def isSeq : PyVal → Option (List PyVal)
  | PyVal.vtuple xs => some xs
  | PyVal.vlist xs => some xs
  | _ => none

/-- `isinstance(x, (int, float))` followed by `int(x)`. -/
def toIntIfNumeric : PyVal → Option Int
  | PyVal.vint n => some n
  | PyVal.vbool b => some (if b then 1 else 0)
  | _ => none

/-- The `ObserverConfiguration` fields read by the embedded observer
code. -/
structure ObserverConfiguration where
  connection_timeout_ms : Nat
  max_speed_value : Int
  max_light_value : Int
deriving DecidableEq

/-- The `ObserverConfiguration` built in `observer-hub.py`'s `main`
(timeout 1000 ms, speed clamp 1000, light clamp 100). -/
def defaultObserverConfig : ObserverConfiguration := ⟨1000, 1000, 100⟩

/-- `BLEDataReceiver._validate_data` (`observer-hub.py` 210-242). -/
def validateData (cfg : ObserverConfiguration) (data : PyVal) :
    Option (Int × Int) :=
  match isSeq data with
  | none => none
  | some xs =>
    match xs with
    | [s, l] =>
      match toIntIfNumeric s, toIntIfNumeric l with
      | some sv, some lv =>
          some (max (-cfg.max_speed_value) (min cfg.max_speed_value sv),
                max 0 (min cfg.max_light_value lv))
      | _, _ => none
    | _ => none

/-- The mutable state of `BLEDataReceiver`: `connection_established` and
the `last_received_time` stopwatch reading in milliseconds. -/
structure RecvState where
  connection_established : Bool
  elapsed : Nat
deriving DecidableEq

/-- `BLEDataReceiver.receive_data` (`observer-hub.py` 180-208): `none`
input models `ble.observe` returning `None`. A present sample —
well-formed or not — sets `connection_established` and resets the
stopwatch before validation; a `None` read clears `connection_established`
at once. -/
def receiveData (cfg : ObserverConfiguration) (st : RecvState)
    (input : Option PyVal) : RecvState × Option (Int × Int) :=
  match input with
  | none => ({ st with connection_established := false }, none)
  | some d => (⟨true, 0⟩, validateData cfg d)

/-- `BLEDataReceiver.is_connected` (`observer-hub.py` 244-247). -/
def isConnected (cfg : ObserverConfiguration) (st : RecvState) : Bool :=
  st.connection_established && decide (st.elapsed < cfg.connection_timeout_ms)

/-- Observable actuator effects of the observer hub. -/
inductive ObsEffect where
  | motorSpeed (s : Int)
  | lightBrightness (l : Int)
  | statusLed (connected : Bool)
deriving DecidableEq

/-- The mutable state of `ObserverHub`. -/
structure ObsState where
  current_speed : Int
  previous_speed : Int
  current_light_value : Int
  has_lights : Bool
  recv : RecvState
deriving DecidableEq

/-- `ObserverHub` state right after `__init__` with the default
configuration and no attached light devices. -/
def obsInit : ObsState := ⟨0, 0, 0, false, ⟨false, 0⟩⟩

/-- `ObserverHub._update_motor_speeds` (`observer-hub.py` 285-293); one
`set_speed` per motor, and the system constructs two `MotorDevice`s. -/
def obsUpdateMotorSpeeds (st : ObsState) (speed : Int) :
    ObsState × List ObsEffect :=
  if speed ≠ st.previous_speed then
    ({ st with previous_speed := speed },
     [ObsEffect.motorSpeed speed, ObsEffect.motorSpeed speed])
  else (st, [])

/-- `ObserverHub._update_lights` (`observer-hub.py` 295-303). -/
def obsUpdateLights (st : ObsState) (light : Int) :
    ObsState × List ObsEffect :=
  if light ≠ st.current_light_value ∧ st.has_lights then
    ({ st with current_light_value := light },
     [ObsEffect.lightBrightness light, ObsEffect.lightBrightness light])
  else (st, [])

/-- One iteration of `ObserverHub.run`'s main loop (`observer-hub.py`
321-346). `dt` is the wall-clock time elapsed since the previous
iteration (it advances the `last_received_time` stopwatch); `input` is
what `ble.observe` returns this cycle. -/
def observerStep (cfg : ObserverConfiguration) (st : ObsState) (dt : Nat)
    (input : Option PyVal) : ObsState × List ObsEffect :=
  let r := receiveData cfg { st.recv with elapsed := st.recv.elapsed + dt } input
  let connected := isConnected cfg r.1
  let st1 : ObsState := { st with recv := r.1 }
  match r.2 with
  | some (s, l) =>
      let m := obsUpdateMotorSpeeds st1 s
      let g := obsUpdateLights m.1 l
      (g.1, ObsEffect.statusLed connected :: (m.2 ++ g.2))
  | none =>
      if connected then (st1, [ObsEffect.statusLed connected])
      else if st1.current_speed ≠ 0 then
        let m := obsUpdateMotorSpeeds st1 0
        (m.1, ObsEffect.statusLed connected :: m.2)
      else (st1, [ObsEffect.statusLed connected])

lemma clampSpeed_bounds (p : MotorProfile) (h : 0 ≤ p.max_speed) (s : Int) :
    -p.max_speed ≤ clampSpeed p s ∧ clampSpeed p s ≤ p.max_speed := by
  unfold clampSpeed; split_ifs <;> omega

lemma speedInvariant_zero (p : MotorProfile) (h : 0 ≤ p.max_speed) :
    speedInvariant p 0 := by
  unfold speedInvariant
  simp [abs_zero, h]

lemma accelTick_invariant (p : MotorProfile) (d : Int)
    (hmin : 0 < p.min_speed) (hmax : p.min_speed ≤ p.max_speed) (s : Int) :
    speedInvariant p (accelTick p d s) := by
  have hc := clampSpeed_bounds p (by omega) (s + d)
  unfold accelTick applyDeadband speedInvariant
  set t := clampSpeed p (s + d) with ht
  split_ifs with hA hd hB
  · rw [mul_one, abs_of_pos hmin]
    constructor <;> omega
  · rw [mul_neg_one, abs_neg, abs_of_pos hmin]
    constructor <;> omega
  · refine ⟨by rw [abs_zero]; omega, by rw [abs_zero]; simp⟩
  · refine ⟨?_, hA⟩
    rcases abs_cases t with ⟨h1, _⟩ | ⟨h1, _⟩ <;> omega

lemma accelLoop_invariant (p : MotorProfile) (d : Int)
    (hmin : 0 < p.min_speed) (hmax : p.min_speed ≤ p.max_speed) :
    ∀ (n : Nat) (s : Int), 1 ≤ n → speedInvariant p (accelLoop p d n s) := by
  intro n
  induction n with
  | zero => intro s h; omega
  | succ k ih =>
      intro s _
      show speedInvariant p (accelLoop p d (k + 1) s)
      rw [accelLoop]
      by_cases h0 : accelTick p d s = 0
      · rw [if_pos h0, h0]
        exact speedInvariant_zero p (by omega)
      · rw [if_neg h0]
        cases k with
        | zero => simpa [accelLoop] using accelTick_invariant p d hmin hmax s
        | succ m => exact ih _ (by omega)

/-- Claim C2: for every profile with `0 < min_speed ≤ max_speed` and every
direction in `{+1, -1}`, after each completed tick of `_accelerate` (and
therefore after any completed loop of at least one tick, hence when
`_accelerate` returns) the speed satisfies `|speed| ≤ max_speed` and
`|speed|` is never strictly between 0 and `min_speed`. -/
theorem ramp_range_invariant (p : MotorProfile) (d : Int)
    (hmin : 0 < p.min_speed) (hmax : p.min_speed ≤ p.max_speed)
    (_hd : d = 1 ∨ d = -1) :
    (∀ s : Int, speedInvariant p (accelTick p d s)) ∧
    (∀ (n : Nat) (s : Int), 1 ≤ n → speedInvariant p (accelLoop p d n s)) :=
  ⟨fun s => accelTick_invariant p d hmin hmax s,
   fun n s h => accelLoop_invariant p d hmin hmax n s h⟩

/-- Witness for C2 at profile A, direction +1, start speed 0. -/
theorem ramp_range_invariant_witness :
    speedInvariant profile_a (accelTick profile_a 1 0) ∧
    speedInvariant profile_a (accelLoop profile_a 1 10 0) :=
  ⟨(ramp_range_invariant profile_a 1 (by decide) (by decide) (Or.inl rfl)).1 0,
   (ramp_range_invariant profile_a 1 (by decide) (by decide) (Or.inl rfl)).2
     10 0 (by decide)⟩

/-- Counterexample for claim C3: one decelerating tick of `_accelerate`
starting from `current_speed = +min_speed = 20` with `direction = -1`
(profile A) yields `-20 = -min_speed`, the opposite-signed value the claim
rules out, and not 0 or `+min_speed`. -/
theorem deadband_counterexample :
    accelTick profile_a (-1) 20 = -20 ∧
    ¬(accelTick profile_a (-1) 20 = 0 ∨ accelTick profile_a (-1) 20 = 20) := by
  decide

/-- Claim C3 as amended: within one tick, whenever the post-increment,
post-clamp speed has magnitude strictly between 0 and `min_speed`, the
deadband always snaps to `min_speed` signed by `direction` (never to 0 and
regardless of the entry magnitude) — so a decelerating tick from
`+min_speed` flips the sign to `-min_speed` — and the snap-to-0 branch
fires exactly when the post-increment, post-clamp speed is already 0. -/
theorem deadband_snaps_to_signed_min (p : MotorProfile) (d s : Int)
    (hmin : 0 < p.min_speed) :
    ((0 < |clampSpeed p (s + d)| ∧ |clampSpeed p (s + d)| < p.min_speed) →
        accelTick p d s = if 0 < d then p.min_speed else -p.min_speed) ∧
    (clampSpeed p (s + d) = 0 → accelTick p d s = 0) := by
  constructor
  · intro h
    unfold accelTick applyDeadband
    rw [if_pos h]
    split_ifs with hd <;> ring
  · intro h
    unfold accelTick applyDeadband
    rw [h]
    rw [if_neg (by simp), if_pos (by simpa using hmin)]

/-- Witness for C3's amended theorem: the concrete decelerating tick from
`+min_speed` on profile A. -/
theorem deadband_snaps_witness :
    accelTick profile_a (-1) 20 =
      if (0 : Int) < -1 then profile_a.min_speed else -profile_a.min_speed :=
  (deadband_snaps_to_signed_min profile_a (-1) 20 (by decide)).1 (by decide)

set_option maxRecDepth 16384 in
/-- Claim C6: from `current_speed = 0` with profile
`{min_speed := 20, max_speed := 100, acceleration_step := 10,
acceleration_delay := 100}` (profile A) and direction +1, after 10 calls of
`_accelerate` the speed is exactly 100, and an 11th call leaves it at
exactly 100. -/
theorem ramp_scenario_ten_calls :
    rampCalls profile_a 1 10 0 = 100 ∧ rampCalls profile_a 1 11 0 = 100 := by
  decide

/-- Claim C7: for every nonzero speed with speed-based LEDs enabled and
`slow_threshold ≤ medium_threshold`, the color is selected from
`pct = |speed| / max_speed * 100` with inclusive low boundaries: `slow`
when `pct ≤ slow_threshold` (so exactly at the threshold the result is the
slow color), `medium` when `slow_threshold < pct ≤ medium_threshold`, and
`fast` when `medium_threshold < pct` — no gap and no overlap. -/
theorem led_threshold_boundaries (cfg : MainConfig) (st : MainState)
    (speed : Int) (hu : cfg.use_speed_based_leds = true) (hz : speed ≠ 0)
    (hth : (currentSpeedLedConfig cfg st.current_profile).slow_threshold ≤
        (currentSpeedLedConfig cfg st.current_profile).medium_threshold) :
    ((speedPercentage (currentProfile cfg st.current_profile) speed ≤
        ((currentSpeedLedConfig cfg st.current_profile).slow_threshold : ℚ)) →
      (getLedColorForSpeed cfg st speed).2 =
        (currentSpeedLedConfig cfg st.current_profile).slow) ∧
    ((((currentSpeedLedConfig cfg st.current_profile).slow_threshold : ℚ) <
        speedPercentage (currentProfile cfg st.current_profile) speed →
      speedPercentage (currentProfile cfg st.current_profile) speed ≤
        ((currentSpeedLedConfig cfg st.current_profile).medium_threshold : ℚ) →
      (getLedColorForSpeed cfg st speed).2 =
        (currentSpeedLedConfig cfg st.current_profile).medium)) ∧
    ((((currentSpeedLedConfig cfg st.current_profile).medium_threshold : ℚ) <
        speedPercentage (currentProfile cfg st.current_profile) speed →
      (getLedColorForSpeed cfg st speed).2 =
        (currentSpeedLedConfig cfg st.current_profile).fast)) := by
  have habs : ¬(|speed| = 0) := by simpa using hz
  have hthq : ((currentSpeedLedConfig cfg st.current_profile).slow_threshold : ℚ) ≤
      ((currentSpeedLedConfig cfg st.current_profile).medium_threshold : ℚ) := by
    exact_mod_cast hth
  unfold getLedColorForSpeed
  rw [if_neg (by simp [hu]), if_neg habs]
  refine ⟨fun h => ?_, fun h1 h2 => ?_, fun h => ?_⟩
  · rw [if_pos h]
  · rw [if_neg (not_le.mpr h1), if_pos h2]
  · rw [if_neg (by linarith), if_neg (by linarith)]

/-- Witness for C7 at the default configuration: speed 30 on profile A
(`max_speed = 100`) gives `pct = 30`, exactly the slow threshold, and the
selected color is the slow color. -/
theorem led_threshold_boundaries_witness :
    (getLedColorForSpeed defaultConfig
        ⟨0, 0, 1, 0, ⟨⟨false, 0, 0⟩, false⟩, true⟩ 30).2 =
      (currentSpeedLedConfig defaultConfig 1).slow :=
  (led_threshold_boundaries defaultConfig
      ⟨0, 0, 1, 0, ⟨⟨false, 0, 0⟩, false⟩, true⟩ 30 rfl (by decide)
      (by decide)).1 (by
    norm_num [speedPercentage, currentProfile, currentSpeedLedConfig,
      defaultConfig, profile_a, led_speed_profile_a])

/-- Claim C8: the LED color computation is a pure function of
`(config, state, speed)` — identical arguments give identical results —
and the stopped-state blink color selection is idempotent within a tick:
with no elapsed-time advance, running `_get_stopped_led_color` a second
time from the state the first call produced changes nothing (it does not
toggle the blink state again) and returns the same color. -/
theorem led_blink_deterministic_idempotent :
    (∀ (cfg : MainConfig) (st : MainState) (speed : Int),
        getLedColorForSpeed cfg st speed = getLedColorForSpeed cfg st speed) ∧
    (∀ (sc : SpeedLEDConfig) (st : LedState),
        getStoppedLedColor sc (getStoppedLedColor sc st).1 =
          getStoppedLedColor sc st) := by
  refine ⟨fun _ _ _ => rfl, fun sc st => ?_⟩
  rcases st with ⟨⟨a, tt, e⟩, b⟩
  cases a
  · simp [getStoppedLedColor, timerCheck, timerStart]
  · by_cases h : tt < e
    · simp [getStoppedLedColor, timerCheck, timerStart, h]
    · simp [getStoppedLedColor, timerCheck, timerStart, h]

/-- Claim C9: starting from `light_value ∈ [0, 100]`, one invocation of
`_handle_light_control` keeps the light value within `[0, 100]`, and the
result is exactly that of the single action selected in priority order
up, down, toggle (or no action), so at most one action takes effect per
iteration. -/
theorem light_value_invariant (b : LightButtons) (l : Int)
    (h0 : 0 ≤ l) (h1 : l ≤ 100) :
    (0 ≤ (handleLightControl b l).1 ∧ (handleLightControl b l).1 ≤ 100) ∧
    (handleLightControl b l).1 = applyLightAction (lightAction b) l := by
  unfold handleLightControl lightAction
  split_ifs <;> constructor <;> simp [applyLightAction] <;> omega

/-- Witness for C9: pressing only B-up at `light_value = 95` yields 100,
inside the range. -/
theorem light_value_invariant_witness :
    (0 ≤ (handleLightControl ⟨true, false, false⟩ 95).1 ∧
      (handleLightControl ⟨true, false, false⟩ 95).1 ≤ 100) ∧
    (handleLightControl ⟨true, false, false⟩ 95).1 =
      applyLightAction (lightAction ⟨true, false, false⟩) 95 :=
  light_value_invariant ⟨true, false, false⟩ 95 (by decide) (by decide)

/-- Claim C10: when `current_speed = previous_speed`,
`_update_motor_speeds` issues no motor `set_speed`, no remote LED update
and no broadcast, and leaves the whole system state unchanged. -/
theorem update_motor_speeds_frame (cfg : MainConfig) (st : MainState)
    (h : st.current_speed = st.previous_speed) :
    updateMotorSpeeds cfg st = (st, []) := by
  unfold updateMotorSpeeds
  rw [if_neg (by simp [h])]

/-- Witness for C10: a concrete stopped state commanded to stay stopped
produces no effects and no state change. -/
theorem update_motor_speeds_frame_witness :
    updateMotorSpeeds defaultConfig
        ⟨0, 0, 1, 0, ⟨⟨false, 0, 0⟩, true⟩, true⟩ =
      (⟨0, 0, 1, 0, ⟨⟨false, 0, 0⟩, true⟩, true⟩, []) :=
  update_motor_speeds_frame defaultConfig
    ⟨0, 0, 1, 0, ⟨⟨false, 0, 0⟩, true⟩, true⟩ rfl

lemma obsUpdateMotorSpeeds_current_speed (st : ObsState) (speed : Int) :
    (obsUpdateMotorSpeeds st speed).1.current_speed = st.current_speed := by
  unfold obsUpdateMotorSpeeds; split_ifs <;> rfl

lemma obsUpdateLights_current_speed (st : ObsState) (light : Int) :
    (obsUpdateLights st light).1.current_speed = st.current_speed := by
  unfold obsUpdateLights; split_ifs <;> rfl

lemma observerStep_current_speed (cfg : ObserverConfiguration)
    (st : ObsState) (dt : Nat) (input : Option PyVal) :
    (observerStep cfg st dt input).1.current_speed = st.current_speed := by
  unfold observerStep
  cases input with
  | none =>
      simp only [receiveData]
      split_ifs <;>
        simp [obsUpdateMotorSpeeds_current_speed]
  | some d =>
      simp only [receiveData]
      cases hv : validateData cfg d with
      | none => split_ifs <;> simp [obsUpdateMotorSpeeds_current_speed]
      | some pr =>
          cases pr with
          | mk s l =>
              simp [obsUpdateLights_current_speed,
                obsUpdateMotorSpeeds_current_speed]

/-- Claim C1 (code bug): `ObserverHub.run`'s fail-safe guard tests
`self.current_speed`, but nothing in `observer-hub.py` ever assigns it
after `__init__`, so it is identically 0 across loop iterations (first
conjunct) and the stop branch can never fire. Concretely (remaining
conjuncts): from the initial state, an iteration that receives the valid
sample `(50, 20)` commands the motors to 50; the next iteration with no
data finds the link down, yet issues NO motor command (its only effect is
the status LED) and leaves the last commanded speed at 50 — the fail-safe
stop the claim and the spec require never happens. -/
theorem observer_failsafe_not_triggered :
    (∀ (cfg : ObserverConfiguration) (st : ObsState) (dt : Nat)
        (input : Option PyVal),
        (observerStep cfg st dt input).1.current_speed = st.current_speed) ∧
    (observerStep defaultObserverConfig obsInit 0
        (some (PyVal.vtuple [PyVal.vint 50, PyVal.vint 20]))).2 =
      [ObsEffect.statusLed true, ObsEffect.motorSpeed 50,
        ObsEffect.motorSpeed 50] ∧
    (observerStep defaultObserverConfig obsInit 0
        (some (PyVal.vtuple [PyVal.vint 50, PyVal.vint 20]))).1.previous_speed
      = 50 ∧
    isConnected defaultObserverConfig
      (observerStep defaultObserverConfig
          (observerStep defaultObserverConfig obsInit 0
            (some (PyVal.vtuple [PyVal.vint 50, PyVal.vint 20]))).1
          10 none).1.recv = false ∧
    (observerStep defaultObserverConfig
        (observerStep defaultObserverConfig obsInit 0
          (some (PyVal.vtuple [PyVal.vint 50, PyVal.vint 20]))).1
        10 none).2 = [ObsEffect.statusLed false] ∧
    (observerStep defaultObserverConfig
        (observerStep defaultObserverConfig obsInit 0
          (some (PyVal.vtuple [PyVal.vint 50, PyVal.vint 20]))).1
        10 none).1.previous_speed = 50 :=
  ⟨observerStep_current_speed, rfl, rfl, rfl, rfl, rfl⟩

/-- Counterexample for claim C4: (i) a malformed-but-present sample (a
3-element tuple, which the validator rejects) still establishes the link:
received from a disconnected state, it makes `is_connected` true; (ii) a
single receive returning no data clears the link immediately even though
the elapsed time (5 ms) is far below the 1000 ms timeout. -/
theorem link_state_counterexample :
    (validateData defaultObserverConfig
        (PyVal.vtuple [PyVal.vint 1, PyVal.vint 2, PyVal.vint 3]) = none ∧
      isConnected defaultObserverConfig
        (receiveData defaultObserverConfig ⟨false, 0⟩
          (some (PyVal.vtuple [PyVal.vint 1, PyVal.vint 2, PyVal.vint 3]))).1
        = true) ∧
    ((5 : Nat) < defaultObserverConfig.connection_timeout_ms ∧
      isConnected defaultObserverConfig
        (receiveData defaultObserverConfig ⟨true, 5⟩ none).1 = false) := by
  decide

/-- Claim C4 as amended: `connection_established` is set by ANY present
sample — well-formed or malformed — with the staleness stopwatch reset to
0 (so `is_connected` then holds exactly when the timeout is positive); it
is cleared immediately by a receive that returns no data; and
independently `is_connected` is false once the elapsed time reaches the
timeout. -/
theorem link_transitions_amended (cfg : ObserverConfiguration)
    (st : RecvState) (d : PyVal) :
    ((receiveData cfg st (some d)).1.connection_established = true ∧
      (receiveData cfg st (some d)).1.elapsed = 0 ∧
      isConnected cfg (receiveData cfg st (some d)).1 =
        decide (0 < cfg.connection_timeout_ms)) ∧
    isConnected cfg (receiveData cfg st none).1 = false ∧
    (∀ (b : Bool) (k : Nat),
      isConnected cfg ⟨b, cfg.connection_timeout_ms + k⟩ = false) := by
  refine ⟨⟨rfl, rfl, ?_⟩, ?_, fun b k => ?_⟩
  · simp [isConnected, receiveData]
  · simp [isConnected, receiveData]
  · have hk : ¬(cfg.connection_timeout_ms + k < cfg.connection_timeout_ms) :=
      by omega
    simp [isConnected, hk]

/-- Claim C5: `_validate_data` returns `None` whenever the input is not a
2-element tuple or list or either element is non-numeric, and on every
numeric pair returns the integers with the speed clamped to
`[-max_speed_value, max_speed_value]` and the light clamped to
`[0, max_light_value]`. (Numerics range over Python ints and bools here;
float samples are outside the model.) -/
theorem validate_data_contract (cfg : ObserverConfiguration) (d : PyVal) :
    (isSeq d = none → validateData cfg d = none) ∧
    (∀ xs, isSeq d = some xs → xs.length ≠ 2 → validateData cfg d = none) ∧
    (∀ s l, isSeq d = some [s, l] →
        toIntIfNumeric s = none ∨ toIntIfNumeric l = none →
        validateData cfg d = none) ∧
    (∀ s l sv lv, isSeq d = some [s, l] → toIntIfNumeric s = some sv →
        toIntIfNumeric l = some lv →
        validateData cfg d =
          some (max (-cfg.max_speed_value) (min cfg.max_speed_value sv),
                max 0 (min cfg.max_light_value lv))) := by
  refine ⟨fun h => ?_, fun xs h hlen => ?_, fun s l h hn => ?_,
    fun s l sv lv h hs hl => ?_⟩
  · unfold validateData; rw [h]
  · unfold validateData; rw [h]
    rcases xs with _ | ⟨a, _ | ⟨b, _ | ⟨c, t⟩⟩⟩
    · rfl
    · rfl
    · exact absurd rfl hlen
    · rfl
  · simp only [validateData, h]
    rcases hn with hn | hn
    · rw [hn]
    · rw [hn]
      cases hs : toIntIfNumeric s <;> rfl
  · simp only [validateData, h]
    rw [hs, hl]

/-- Witness for C5: the spec's example — `speed = 5000` with
`max_speed_value = 1000` is accepted and clamped to 1000 (light 50 passes
through). -/
theorem validate_data_contract_witness :
    validateData defaultObserverConfig
        (PyVal.vtuple [PyVal.vint 5000, PyVal.vint 50]) = some (1000, 50) := by
  rw [(validate_data_contract defaultObserverConfig
      (PyVal.vtuple [PyVal.vint 5000, PyVal.vint 50])).2.2.2
      (PyVal.vint 5000) (PyVal.vint 50) 5000 50 rfl rfl rfl]
  decide

end PybricksTrain
